import Mathlib

/-!
A shallow embedding of the Arduino_LowPowerNiclaVision library
(`src/Arduino_LowPowerNiclaVision.h` and the implementation file), with
theorems checking the natural-language specification against the code.

Machine integers are modelled as `Nat` with explicit reduction modulo
`2 ^ 64` (for `unsigned long long int`) or `2 ^ 32` (for 32-bit
hardware registers) at every operation where C/C++ semantics wrap.
Hardware interaction (HAL calls and register writes) is modelled by an
explicit environment of call outcomes and an event trace, so that
ordering and frame claims ("no register written before the early
return", "the critical section is never exited") become statements
about the produced trace.
-/

namespace LowPowerNiclaVision

/-- `2 ^ 64`, the modulus of C `unsigned long long int` arithmetic on this
target. -/
def W64 : Nat := 2 ^ 64

/-- The return codes of the library API
(`enum class LowPowerReturnCode` in the header). -/
inductive LowPowerReturnCode where
  | success
  | flashUnlockFailed
  | obUnlockFailed
  | obProgramFailed
  | obLaunchFailed
  | obNotPrepared
  | m7StandbyFailed
  | m4StandbyFailed
  | wakeupDelayTooLong
  | enableLSEFailed
  | selectLSEFailed
  | voltageScalingFailed
  deriving DecidableEq, Repr

/-! ## RTCWakeupDelay

The `RTCWakeupDelay` class stores a single `unsigned long long int`
field `value`; we model a delay by that field's value, a `Nat` below
`2 ^ 64`.  All constructions reduce modulo `2 ^ 64`, exactly as the
C++ unsigned arithmetic does. -/

namespace RTCWakeupDelay

/-- `RTCWakeupDelay::infinite = ULONG_LONG_MAX`: the private sentinel
meaning "wait forever". -/
def infinite : Nat := W64 - 1

/-- The private constructor `RTCWakeupDelay(delay)`: stores the delay value
(reduced into the `unsigned long long int` range). -/
def ofValue (delay : Nat) : Nat := delay % W64

/-- The public constructor `RTCWakeupDelay(hours, minutes, seconds)`, whose
initializer is `value(hours * 60 * 60 + minutes * 60 + seconds)`; each C
operation on `unsigned long long int` wraps modulo `2 ^ 64`. -/
def ofHMS (hours minutes seconds : Nat) : Nat :=
  (((hours % W64 * 60 % W64) * 60 % W64 + minutes % W64 * 60 % W64) % W64
    + seconds % W64) % W64

end RTCWakeupDelay

/-- `operator""_s(seconds)`: builds `RTCWakeupDelay(seconds)`. -/
def litS (seconds : Nat) : Nat := RTCWakeupDelay.ofValue seconds

/-- `operator""_min(minutes)`: builds `RTCWakeupDelay(minutes * 60)` with
64-bit wrapping multiplication. -/
def litMin (minutes : Nat) : Nat := RTCWakeupDelay.ofValue (minutes % W64 * 60 % W64)

/-- `operator""_h(hours)`: builds `RTCWakeupDelay(hours * 60 * 60)` with
64-bit wrapping multiplication. -/
def litH (hours : Nat) : Nat :=
  RTCWakeupDelay.ofValue (hours % W64 * 60 % W64 * 60 % W64)

/-- `operator+(d1, d2)`: builds `RTCWakeupDelay(d1.value + d2.value)` with
64-bit wrapping addition. -/
def addDelay (d1 d2 : Nat) : Nat := RTCWakeupDelay.ofValue ((d1 % W64 + d2 % W64) % W64)

/-! ## Option bytes

`checkOptionBytes` reads the bank-1 user configuration word and tests
three vendor-defined masks.  The vendor header is not part of this
repository; per the spec the three monitored items are "three specific
bit positions within a vendor-defined option-byte register", so the
masks are modelled as three distinct single-bit masks (bit positions of
the STM32H747 option status register). -/

/-- Vendor mask for "force D1 reset on standby" (single bit of the
option-byte user configuration word). -/
def OB_STDBY_RST_D1 : Nat := 2 ^ 3

/-- Vendor mask for "force D2 reset on standby" (single bit of the
option-byte user configuration word). -/
def OB_STDBY_RST_D2 : Nat := 2 ^ 7

/-- Vendor mask for the BCM4 co-processor enable bit of the option-byte
user configuration word. -/
def OB_BCM4_ENABLE : Nat := 2 ^ 22

/-- `LowPowerNiclaVision::checkOptionBytes`, as a function of the user
configuration word read by `HAL_FLASHEx_OBGetConfig` from bank 1.  The C
condition `if (MASK & config)` tests that the bitwise AND is nonzero. -/
def checkOptionBytes (userConfig : Nat) : LowPowerReturnCode :=
  if OB_STDBY_RST_D1 &&& userConfig ≠ 0 then .obNotPrepared
  else if OB_STDBY_RST_D2 &&& userConfig ≠ 0 then .obNotPrepared
  else if OB_BCM4_ENABLE &&& userConfig ≠ 0 then .obNotPrepared
  else .success

/-- The flash/option-byte operations attempted by `prepareOptionBytes`,
in the order they appear in the trace. -/
inductive FlashEv where
  | flashUnlock   -- HAL_FLASH_Unlock()
  | obUnlock      -- HAL_FLASH_OB_Unlock()
  | obProgram     -- HAL_FLASHEx_OBProgram(...)
  | obLaunch      -- HAL_FLASH_OB_Launch()
  | obLock        -- HAL_FLASH_OB_Lock()
  | flashLock     -- HAL_FLASH_Lock()
  deriving DecidableEq, Repr

/-- Outcomes of the fallible HAL flash calls: whether each returns
`HAL_OK`, and whether `HAL_FLASH_OB_Launch` triggers the expected system
reset (in which case execution never returns to the function). -/
structure FlashEnv where
  flashUnlockOk : Bool
  obUnlockOk : Bool
  obProgramOk : Bool
  obLaunchResets : Bool
  deriving DecidableEq, Repr

/-- `LowPowerNiclaVision::prepareOptionBytes`.  The result is the returned
code (`none` when the launch step resets the system, so the function never
returns) together with the trace of flash operations attempted. -/
def prepareOptionBytes (env : FlashEnv) : Option LowPowerReturnCode × List FlashEv :=
  let t := [FlashEv.flashUnlock]
  if !env.flashUnlockOk then (some .flashUnlockFailed, t)
  else
    let t := t ++ [FlashEv.obUnlock]
    if !env.obUnlockOk then (some .obUnlockFailed, t)
    else
      let t := t ++ [FlashEv.obProgram]
      if !env.obProgramOk then
        (some .obProgramFailed, t ++ [FlashEv.obLock, FlashEv.flashLock])
      else
        let t := t ++ [FlashEv.obLaunch]
        if env.obLaunchResets then (none, t)
        else (some .obLaunchFailed, t ++ [FlashEv.obLock, FlashEv.flashLock])

/-! ## EXTI interrupt quiescing

Register-level semantics of the interrupt-quiescing writes.  Both cores
use the same masks; `standbyM7` writes `IMR1..3` / `PR1..3` and
`standbyM4` writes `C2IMR1..3` / `C2PR1..3`.  Registers are 32-bit, so
the C complement `~0x1f5ffff` on a `uint32_t` is modelled as XOR with
`0xffffffff`. -/

/-- The six EXTI registers touched by the quiescing step (per core). -/
structure ExtiRegs where
  imr1 : Nat
  imr2 : Nat
  imr3 : Nat
  pr1 : Nat
  pr2 : Nat
  pr3 : Nat
  deriving DecidableEq, Repr

/-- The interrupt-mask writes of `standbyM7`:
`IMR1 = 0; IMR2 = 1 << 13; IMR3 &= ~0x1f5ffff;`. -/
def maskExtiM7 (e : ExtiRegs) : ExtiRegs :=
  { e with imr1 := 0
           imr2 := 1 <<< 13
           imr3 := e.imr3 &&& (0xffffffff ^^^ 0x1f5ffff) }

/-- The pending-clear writes of `standbyM7`:
`PR1 |= 0x3fffff; PR2 |= (1<<17)|(1<<19); PR3 |= (1<<18)|(1<<20)|(1<<21)|(1<<22);`. -/
def clearPendingExtiM7 (e : ExtiRegs) : ExtiRegs :=
  { e with pr1 := e.pr1 ||| 0x3fffff
           pr2 := e.pr2 ||| ((1 <<< 17) ||| (1 <<< 19))
           pr3 := e.pr3 ||| ((1 <<< 18) ||| (1 <<< 20) ||| (1 <<< 21) ||| (1 <<< 22)) }

/-- The interrupt-quiescing step of `standbyM7` on the EXTI registers
(the mask writes followed by the pending-clear writes). -/
def quiesceExtiM7 (e : ExtiRegs) : ExtiRegs := clearPendingExtiM7 (maskExtiM7 e)

/-- The interrupt-mask writes of `standbyM4` on `C2IMR1..3`:
`C2IMR1 = 0; C2IMR2 = 1 << 13; C2IMR3 &= ~0x1f5ffff;`. -/
def maskExtiM4 (e : ExtiRegs) : ExtiRegs :=
  { e with imr1 := 0
           imr2 := 1 <<< 13
           imr3 := e.imr3 &&& (0xffffffff ^^^ 0x1f5ffff) }

/-- The pending-clear writes of `standbyM4` on `C2PR1..3`. -/
def clearPendingExtiM4 (e : ExtiRegs) : ExtiRegs :=
  { e with pr1 := e.pr1 ||| 0x3fffff
           pr2 := e.pr2 ||| ((1 <<< 17) ||| (1 <<< 19))
           pr3 := e.pr3 ||| ((1 <<< 18) ||| (1 <<< 20) ||| (1 <<< 21) ||| (1 <<< 22)) }

/-- The interrupt-quiescing step of `standbyM4` on the C2 EXTI registers. -/
def quiesceExtiM4 (e : ExtiRegs) : ExtiRegs := clearPendingExtiM4 (maskExtiM4 e)

/-! ## Standby entry: trace model

`standbyM7` and `standbyM4` are modelled as functions from an
environment of HAL call outcomes to a returned code (`none` when a
power-down request succeeds, so execution never returns) and the trace
of hardware actions performed, in program order. -/

/-- The power domains passed to `HAL_PWREx_EnterSTANDBYMode`. -/
inductive PwrDomain where
  | d1
  | d2
  | d3
  deriving DecidableEq, Repr

/-- The wakeup-timer clock selection passed to `LL_RTC_WAKEUP_SetClock`:
`LL_RTC_WAKEUPCLOCK_CKSPRE` (the direct 1 Hz clock) or
`LL_RTC_WAKEUPCLOCK_CKSPRE_WUT` (the extended mode). -/
inductive WutClock where
  | ckspre
  | ckspreWut
  deriving DecidableEq, Repr

/-- Hardware actions performed by the standby procedures, in program
order.  Register writes and HAL calls each produce one event. -/
inductive Ev where
  | csEnter                      -- core_util_critical_section_enter()
  | csExit                       -- core_util_critical_section_exit() (never emitted: no call in source)
  | waitFlashReady               -- waitForFlashReady() busy-wait
  | configD3Domain               -- HAL_PWREx_ConfigD3Domain(PWR_D3_DOMAIN_STOP)
  | voltageScaling               -- HAL_PWREx_ControlVoltageScaling(PWR_REGULATOR_VOLTAGE_SCALE1)
  | writeImr1                    -- EXTI->IMR1 = 0
  | writeImr2                    -- EXTI->IMR2 = 1 << 13
  | writeImr3                    -- EXTI->IMR3 &= ~0x1f5ffff
  | extiLine19Enable             -- HAL_EXTI_D1_EventInputConfig(EXTI_LINE19, EXTI_MODE_IT, ENABLE)
  | writePr1                     -- EXTI->PR1 |= 0x3fffff
  | writePr2                     -- EXTI->PR2 |= (1<<17)|(1<<19)
  | writePr3                     -- EXTI->PR3 |= (1<<18)|(1<<20)|(1<<21)|(1<<22)
  | oscConfigLSE                 -- HAL_RCC_OscConfig (LSE on)
  | periphClkRTC                 -- HAL_RCCEx_PeriphCLKConfig (RTC clock <- LSE)
  | rtcClockEnable               -- __HAL_RCC_RTC_ENABLE()
  | rtcWriteProtectionOff        -- LL_RTC_DisableWriteProtection(RTC)
  | rtcEnterInit                 -- RTC->ISR |= 1 << 7, then busy-wait on INIT
  | rtcSetHourFormat24           -- LL_RTC_SetHourFormat(RTC, LL_RTC_HOURFORMAT_24HOUR)
  | rtcSetAsynchPrescaler (v : Nat)
  | rtcSetSynchPrescaler (v : Nat)
  | rtcExitInit                  -- RTC->ISR &= ~(1 << 7), then busy-wait on INIT
  | rtcDisableItWut              -- LL_RTC_DisableIT_WUT(RTC)
  | rtcWakeupDisable             -- LL_RTC_WAKEUP_Disable(RTC), then busy-wait on WUTW
  | wutSetAutoReload (v : Nat)   -- LL_RTC_WAKEUP_SetAutoReload(RTC, v)
  | wutSetClock (c : WutClock)   -- LL_RTC_WAKEUP_SetClock(RTC, c)
  | rtcWakeupEnable              -- LL_RTC_WAKEUP_Enable(RTC)
  | rtcEnableItWut               -- LL_RTC_EnableIT_WUT(RTC)
  | wutExtiRisingEdge            -- __HAL_RTC_WAKEUPTIMER_EXTI_ENABLE_RISING_EDGE()
  | rtcClearFlagWut              -- LL_RTC_ClearFlag_WUT(RTC)
  | rtcWriteProtectionOn         -- LL_RTC_EnableWriteProtection(RTC)
  | nvicDisableAndClearAll       -- the loop over NVIC->ICER[i] / NVIC->ICPR[i]
  | nvicSetPriorityRtcWkup       -- HAL_NVIC_SetPriority(RTC_WKUP_IRQn, 0x0, 0)
  | nvicEnableIrqRtcWkup         -- HAL_NVIC_EnableIRQ(RTC_WKUP_IRQn)
  | enableCSS                    -- HAL_RCC_EnableCSS()
  | resetPeripheralBuses         -- the __HAL_RCC_*_FORCE/RELEASE_RESET sequence
  | flashC2Allocate              -- RCC_C2->AHB3ENR |= RCC_AHB3ENR_FLASHEN; __DSB()
  | cleanDCache                  -- SCB_CleanDCache() (compiled for CORE_CM7)
  | enterStandby (d : PwrDomain) -- HAL_PWREx_EnterSTANDBYMode(domain)
  | writeC2Imr1                  -- EXTI->C2IMR1 = 0
  | writeC2Imr2                  -- EXTI->C2IMR2 = 1 << 13
  | writeC2Imr3                  -- EXTI->C2IMR3 &= ~0x1f5ffff
  | writeC2Pr1                   -- EXTI->C2PR1 |= 0x3fffff
  | writeC2Pr2                   -- EXTI->C2PR2 |= (1<<17)|(1<<19)
  | writeC2Pr3                   -- EXTI->C2PR3 |= (1<<18)|(1<<20)|(1<<21)|(1<<22)
  deriving DecidableEq, Repr

/-- Outcomes of the fallible HAL calls made by the standby procedures:
whether each configuration call returns `HAL_OK`, and whether execution
returns from each `HAL_PWREx_EnterSTANDBYMode` request (a successful
standby entry never returns). -/
structure HalEnv where
  voltageScalingOk : Bool
  oscConfigOk : Bool
  periphClkOk : Bool
  standbyD1Returns : Bool
  standbyD3Returns : Bool
  standbyD2Returns : Bool
  deriving DecidableEq, Repr

/-- The wakeup sub-timer reload/clock-select computation of `standbyM7`
(the `if (wakeupDelay < (2ULL << 16))` branch): the value passed to
`LL_RTC_WAKEUP_SetAutoReload` and the clock passed to
`LL_RTC_WAKEUP_SetClock`.  On the `else` branch `wakeupDelay ≥ 2 <<< 16`,
so the `Nat` subtraction agrees with the C unsigned subtraction. -/
def wutConfigEvents (wakeupDelay : Nat) : List Ev :=
  if wakeupDelay < (2 <<< 16) then
    [Ev.wutSetAutoReload wakeupDelay, Ev.wutSetClock WutClock.ckspre]
  else
    [Ev.wutSetAutoReload (wakeupDelay - (2 <<< 16)), Ev.wutSetClock WutClock.ckspreWut]

/-- The body of `standbyM7`'s `if (RTCWakeupDelay::infinite != wakeupDelay)`
wakeup-timer configuration block: LSE oscillator enable, RTC clock-source
selection, RTC enable, prescaler programming, and wakeup sub-timer setup.
Returns the early-return code, if any, and the trace of the block. -/
def rtcWakeupConfig (env : HalEnv) (wakeupDelay : Nat) :
    Option LowPowerReturnCode × List Ev :=
  let t := [Ev.oscConfigLSE]
  if !env.oscConfigOk then (some .enableLSEFailed, t)
  else
    let t := t ++ [Ev.periphClkRTC]
    if !env.periphClkOk then (some .selectLSEFailed, t)
    else
      (none,
        t ++ [Ev.rtcClockEnable, Ev.rtcWriteProtectionOff, Ev.rtcEnterInit,
              Ev.rtcSetHourFormat24, Ev.rtcSetAsynchPrescaler 127,
              Ev.rtcSetSynchPrescaler 255, Ev.rtcExitInit,
              Ev.rtcDisableItWut, Ev.rtcWakeupDisable]
          ++ wutConfigEvents wakeupDelay
          ++ [Ev.rtcWakeupEnable, Ev.rtcEnableItWut, Ev.wutExtiRisingEdge,
              Ev.rtcClearFlagWut, Ev.rtcWriteProtectionOn])

/-- The tail of `standbyM7` after the wakeup-timer configuration block:
the second pending-clear pass, the NVIC disable/clear loop, the
conditional RTC wakeup interrupt enable, CSS enable, peripheral bus
resets, the flash-allocation barrier, the data-cache clean, and the
final power-down request for the D1 domain. -/
def standbyM7Tail (env : HalEnv) (wakeupDelay : Nat) (t : List Ev) :
    Option LowPowerReturnCode × List Ev :=
  let t := t ++ [Ev.writePr1, Ev.writePr2, Ev.writePr3, Ev.nvicDisableAndClearAll]
  let t := if RTCWakeupDelay.infinite ≠ wakeupDelay then
      t ++ [Ev.nvicSetPriorityRtcWkup, Ev.nvicEnableIrqRtcWkup]
    else t
  let t := t ++ [Ev.enableCSS, Ev.resetPeripheralBuses, Ev.flashC2Allocate,
                 Ev.cleanDCache, Ev.enterStandby PwrDomain.d1]
  if env.standbyD1Returns then (some .m7StandbyFailed, t) else (none, t)

/-- `LowPowerNiclaVision::standbyM7(delay)`, as a function of the HAL
outcome environment and of `delay.value` (a `Nat` below `2 ^ 64`).
Returns the code returned to the caller (`none` when the final
power-down request succeeds, so execution never returns) and the trace
of hardware actions, in program order. -/
def standbyM7 (env : HalEnv) (wakeupDelay : Nat) :
    Option LowPowerReturnCode × List Ev :=
  if (2 <<< 17) ≤ wakeupDelay ∧ RTCWakeupDelay.infinite ≠ wakeupDelay then
    (some .wakeupDelayTooLong, [])
  else
    let t := [Ev.csEnter, Ev.waitFlashReady, Ev.configD3Domain, Ev.voltageScaling]
    if !env.voltageScalingOk then (some .voltageScalingFailed, t)
    else
      let t := t ++ [Ev.writeImr1, Ev.writeImr2, Ev.writeImr3]
      let t := if RTCWakeupDelay.infinite ≠ wakeupDelay then
          t ++ [Ev.extiLine19Enable]
        else t
      let t := t ++ [Ev.writePr1, Ev.writePr2, Ev.writePr3]
      let cfg := if RTCWakeupDelay.infinite ≠ wakeupDelay then
          rtcWakeupConfig env wakeupDelay
        else (none, [])
      match cfg with
      | (some c, t2) => (some c, t ++ t2)
      | (none, t2) => standbyM7Tail env wakeupDelay (t ++ t2)

/-- `LowPowerNiclaVision::standbyM4()`: critical section, flash wait,
C2 EXTI quiescing, NVIC disable/clear loop, then the standby requests
for the D3 and D2 domains. -/
def standbyM4 (env : HalEnv) : Option LowPowerReturnCode × List Ev :=
  let t := [Ev.csEnter, Ev.waitFlashReady,
            Ev.writeC2Imr1, Ev.writeC2Imr2, Ev.writeC2Imr3,
            Ev.writeC2Pr1, Ev.writeC2Pr2, Ev.writeC2Pr3,
            Ev.nvicDisableAndClearAll,
            Ev.enterStandby PwrDomain.d3]
  if !env.standbyD3Returns then (none, t)
  else
    let t := t ++ [Ev.enterStandby PwrDomain.d2]
    if !env.standbyD2Returns then (none, t)
    else (some .m4StandbyFailed, t)

/-- The events of `standbyM7` that constitute wakeup-timer configuration:
writes to the oscillator, RTC-clock-source and RTC registers, the
enabling of EXTI line 19, and the RTC wakeup interrupt setup at the NVIC. -/
def isWakeupCfgEv : Ev → Bool
  | .extiLine19Enable | .oscConfigLSE | .periphClkRTC | .rtcClockEnable
  | .rtcWriteProtectionOff | .rtcEnterInit | .rtcSetHourFormat24
  | .rtcSetAsynchPrescaler _ | .rtcSetSynchPrescaler _ | .rtcExitInit
  | .rtcDisableItWut | .rtcWakeupDisable | .wutSetAutoReload _ | .wutSetClock _
  | .rtcWakeupEnable | .rtcEnableItWut | .wutExtiRisingEdge | .rtcClearFlagWut
  | .rtcWriteProtectionOn | .nvicSetPriorityRtcWkup | .nvicEnableIrqRtcWkup => true
  | _ => false

/-! ## Helper lemmas -/

lemma two_shl_16 : (2 <<< 16 : Nat) = 131072 := by
  simp [Nat.shiftLeft_eq]

lemma two_shl_17 : (2 <<< 17 : Nat) = 262144 := by
  simp [Nat.shiftLeft_eq]

/-- The constructor initializer `value(h * 60 * 60 + m * 60 + s)`, with its
per-operation 64-bit wrapping, equals the single linear combination reduced
once modulo `2 ^ 64`. -/
lemma ofHMS_eq (h m s : Nat) :
    RTCWakeupDelay.ofHMS h m s = (h * 3600 + m * 60 + s) % W64 := by
  unfold RTCWakeupDelay.ofHMS
  simp only [Nat.mod_mul_mod, Nat.mod_add_mod, Nat.add_mod_mod]
  ring_nf

/-- A test `if (MASK & config)` against a single-bit mask `2 ^ i` is
exactly a test of bit `i` of `config`. -/
lemma two_pow_and_eq_zero (i n : Nat) :
    ((2 ^ i) &&& n = 0) ↔ n.testBit i = false := by
  rw [Nat.two_pow_and]
  cases h : n.testBit i <;> simp [h]

lemma enterStandby_not_mem_wutConfigEvents (dom : PwrDomain) (d : Nat) :
    Ev.enterStandby dom ∉ wutConfigEvents d := by
  unfold wutConfigEvents
  split <;> simp

lemma csEnter_not_mem_wutConfigEvents (d : Nat) :
    Ev.csEnter ∉ wutConfigEvents d := by
  unfold wutConfigEvents
  split <;> simp

lemma csExit_not_mem_wutConfigEvents (d : Nat) :
    Ev.csExit ∉ wutConfigEvents d := by
  unfold wutConfigEvents
  split <;> simp

/-- The code returned by `standbyM7`, by path: the delay-bound reject, the
voltage-scaling failure, the two LSE failures (possible only with a finite
delay), and the final power-down request (`m7StandbyFailed` if execution
returns from it, no return at all otherwise). -/
lemma standbyM7_fst (env : HalEnv) (d : Nat) :
    (standbyM7 env d).1 =
      if (2 <<< 17) ≤ d ∧ RTCWakeupDelay.infinite ≠ d then
        some LowPowerReturnCode.wakeupDelayTooLong
      else if env.voltageScalingOk = false then
        some LowPowerReturnCode.voltageScalingFailed
      else if RTCWakeupDelay.infinite ≠ d ∧ env.oscConfigOk = false then
        some LowPowerReturnCode.enableLSEFailed
      else if RTCWakeupDelay.infinite ≠ d ∧ env.periphClkOk = false then
        some LowPowerReturnCode.selectLSEFailed
      else if env.standbyD1Returns = true then
        some LowPowerReturnCode.m7StandbyFailed
      else none := by
  rcases env with ⟨v, o, p, s1, s3, s2⟩
  by_cases hC : 262144 ≤ d ∧ RTCWakeupDelay.infinite ≠ d
  · simp [standbyM7, two_shl_17, hC]
  · by_cases hI : RTCWakeupDelay.infinite = d
    · cases v <;> cases s1 <;>
        simp [standbyM7, standbyM7Tail, two_shl_17, hI]
    · have hD : ¬(262144 ≤ d) := fun hd => hC ⟨hd, hI⟩
      cases v <;> cases o <;> cases p <;> cases s1 <;>
        simp [standbyM7, standbyM7Tail, rtcWakeupConfig, two_shl_17, hD, hI]

/-- `core_util_critical_section_enter` happens exactly when the
delay-bound check passes. -/
lemma csEnter_mem_standbyM7 (env : HalEnv) (d : Nat) :
    Ev.csEnter ∈ (standbyM7 env d).2 ↔
      ¬((2 <<< 17) ≤ d ∧ RTCWakeupDelay.infinite ≠ d) := by
  rcases env with ⟨v, o, p, s1, s3, s2⟩
  by_cases hC : 262144 ≤ d ∧ RTCWakeupDelay.infinite ≠ d
  · simp [standbyM7, two_shl_17, hC]
  · by_cases hI : RTCWakeupDelay.infinite = d
    · cases v <;> cases s1 <;>
        simp [standbyM7, standbyM7Tail, two_shl_17, hI]
    · have hD : ¬(262144 ≤ d) := fun hd => hC ⟨hd, hI⟩
      cases v <;> cases o <;> cases p <;> cases s1 <;>
        simp [standbyM7, standbyM7Tail, rtcWakeupConfig, two_shl_17, hD, hI,
              csEnter_not_mem_wutConfigEvents]

/-- No path of `standbyM7` ever exits the critical section. -/
lemma csExit_not_mem_standbyM7 (env : HalEnv) (d : Nat) :
    Ev.csExit ∉ (standbyM7 env d).2 := by
  rcases env with ⟨v, o, p, s1, s3, s2⟩
  by_cases hC : 262144 ≤ d ∧ RTCWakeupDelay.infinite ≠ d
  · simp [standbyM7, two_shl_17, hC]
  · by_cases hI : RTCWakeupDelay.infinite = d
    · cases v <;> cases s1 <;>
        simp [standbyM7, standbyM7Tail, two_shl_17, hI]
    · have hD : ¬(262144 ≤ d) := fun hd => hC ⟨hd, hI⟩
      cases v <;> cases o <;> cases p <;> cases s1 <;>
        simp [standbyM7, standbyM7Tail, rtcWakeupConfig, two_shl_17, hD, hI,
              csExit_not_mem_wutConfigEvents]

/-- The final power-down request for the D1 domain is issued exactly when
the delay-bound check, the voltage-scaling step and (for finite delays)
the two LSE configuration steps all pass. -/
lemma enterStandbyD1_mem_standbyM7 (env : HalEnv) (d : Nat) :
    Ev.enterStandby PwrDomain.d1 ∈ (standbyM7 env d).2 ↔
      ¬((2 <<< 17) ≤ d ∧ RTCWakeupDelay.infinite ≠ d) ∧
        env.voltageScalingOk = true ∧
        (RTCWakeupDelay.infinite = d ∨
          (env.oscConfigOk = true ∧ env.periphClkOk = true)) := by
  rcases env with ⟨v, o, p, s1, s3, s2⟩
  by_cases hC : 262144 ≤ d ∧ RTCWakeupDelay.infinite ≠ d
  · simp [standbyM7, two_shl_17, hC]
  · by_cases hI : RTCWakeupDelay.infinite = d
    · cases v <;> cases s1 <;>
        simp [standbyM7, standbyM7Tail, two_shl_17, hI]
    · have hD : ¬(262144 ≤ d) := fun hd => hC ⟨hd, hI⟩
      cases v <;> cases o <;> cases p <;> cases s1 <;>
        simp [standbyM7, standbyM7Tail, rtcWakeupConfig, two_shl_17, hD, hI,
              enterStandby_not_mem_wutConfigEvents]

/-! ## Theorems for the claims -/

/-- C9: for all unsigned integer triples (h, m, s), the duration constructed
by `RTCWakeupDelay(h, m, s)` has an underlying seconds count equal to
`h*3600 + m*60 + s`, the arithmetic carried out in the 64-bit unsigned
type, so overflow wraps modulo `2 ^ 64`. -/
theorem C9_ctor_value (h m s : Nat) :
    RTCWakeupDelay.ofHMS h m s = (h * 3600 + m * 60 + s) % 2 ^ 64 :=
  ofHMS_eq h m s

/-- C3 counterexample: the ordinary public constructor reaches the private
sentinel — `RTCWakeupDelay(0, 0, ULONG_LONG_MAX)` has underlying value
`ULONG_LONG_MAX = RTCWakeupDelay::infinite`, refuting the claim that no
ordinary-caller construction can produce the sentinel value. -/
theorem C3_counterexample :
    RTCWakeupDelay.ofHMS 0 0 (2 ^ 64 - 1) = RTCWakeupDelay.infinite := by
  rw [ofHMS_eq]
  unfold RTCWakeupDelay.infinite W64
  norm_num

/-- C3 (amended): no ordinary-caller construction whose 64-bit arithmetic
does not wrap around to `ULONG_LONG_MAX` produces the sentinel: whenever
the mathematical value (`h*3600 + m*60 + s`, `s`, `60*m`, `3600*h`,
`d1 + d2` respectively) is below `2^64 - 1`, the result of the public
constructor, of the literal operators and of duration addition differs
from `RTCWakeupDelay::infinite`. -/
theorem C3_sentinel_needs_wraparound :
    (∀ h m s : Nat, h * 3600 + m * 60 + s < 2 ^ 64 - 1 →
       RTCWakeupDelay.ofHMS h m s ≠ RTCWakeupDelay.infinite) ∧
    (∀ s : Nat, s < 2 ^ 64 - 1 → litS s ≠ RTCWakeupDelay.infinite) ∧
    (∀ m : Nat, 60 * m < 2 ^ 64 - 1 → litMin m ≠ RTCWakeupDelay.infinite) ∧
    (∀ h : Nat, 3600 * h < 2 ^ 64 - 1 → litH h ≠ RTCWakeupDelay.infinite) ∧
    (∀ d1 d2 : Nat, d1 + d2 < 2 ^ 64 - 1 →
       addDelay d1 d2 ≠ RTCWakeupDelay.infinite) := by
  refine ⟨?_, ?_, ?_, ?_, ?_⟩
  · intro h m s hlt
    rw [ofHMS_eq]
    unfold RTCWakeupDelay.infinite W64
    omega
  · intro s hs
    unfold litS RTCWakeupDelay.ofValue RTCWakeupDelay.infinite W64
    omega
  · intro m hm
    unfold litMin RTCWakeupDelay.ofValue RTCWakeupDelay.infinite W64 at *
    omega
  · intro h hh
    unfold litH RTCWakeupDelay.ofValue RTCWakeupDelay.infinite W64 at *
    omega
  · intro d1 d2 hd
    unfold addDelay RTCWakeupDelay.ofValue RTCWakeupDelay.infinite W64
    omega

/-- C3 witness: the amended statement at concrete inputs
(`RTCWakeupDelay(1, 2, 3)`, `5_s`, `5_min`, `5_h`, `5_s + 5_min`). -/
theorem C3_sentinel_needs_wraparound_witness :
    RTCWakeupDelay.ofHMS 1 2 3 ≠ RTCWakeupDelay.infinite ∧
    litS 5 ≠ RTCWakeupDelay.infinite ∧
    litMin 5 ≠ RTCWakeupDelay.infinite ∧
    litH 5 ≠ RTCWakeupDelay.infinite ∧
    addDelay (litS 5) (litMin 5) ≠ RTCWakeupDelay.infinite :=
  ⟨C3_sentinel_needs_wraparound.1 1 2 3 (by norm_num),
   C3_sentinel_needs_wraparound.2.1 5 (by norm_num),
   C3_sentinel_needs_wraparound.2.2.1 5 (by norm_num),
   C3_sentinel_needs_wraparound.2.2.2.1 5 (by norm_num),
   C3_sentinel_needs_wraparound.2.2.2.2 (litS 5) (litMin 5) (by norm_num [litS, litMin, RTCWakeupDelay.ofValue, W64])⟩

/-- C1 counterexample: at delay d = 65536 the code takes the direct-clock
branch with auto-reload 65536, not (as the claim states for
65536 ≤ d < 262144) the extended-clock branch with auto-reload
d − 65536 = 0: the switch between the two modes is not at d = 65536. -/
theorem C1_counterexample :
    wutConfigEvents 65536 =
      [Ev.wutSetAutoReload 65536, Ev.wutSetClock WutClock.ckspre] ∧
    wutConfigEvents 65536 ≠
      [Ev.wutSetAutoReload (65536 - 65536), Ev.wutSetClock WutClock.ckspreWut] := by
  decide

/-- C1 (amended): the wakeup-timer configuration of `standbyM7` switches
modes at d = 2·2^16 = 131072, not 65536: for d < 131072 the auto-reload
value passed to the wakeup sub-timer is d with the direct 1 Hz
clock-select, and for 131072 ≤ d < 262144 it is d − 131072 with the
extended clock-select; d = 131071 uses the direct mode and d = 131072
the extended mode. -/
theorem C1_wakeup_reload (d : Nat) :
    (d < 131072 →
      wutConfigEvents d = [Ev.wutSetAutoReload d, Ev.wutSetClock WutClock.ckspre]) ∧
    (131072 ≤ d → d < 262144 →
      wutConfigEvents d =
        [Ev.wutSetAutoReload (d - 131072), Ev.wutSetClock WutClock.ckspreWut]) := by
  unfold wutConfigEvents
  rw [two_shl_16]
  constructor
  · intro h
    rw [if_pos h]
  · intro h1 _
    rw [if_neg (by omega)]

/-- C1 witness: the amended statement evaluated at the boundary values
131071 (direct mode) and 131072 (extended mode). -/
theorem C1_wakeup_reload_witness :
    wutConfigEvents 131071 =
      [Ev.wutSetAutoReload 131071, Ev.wutSetClock WutClock.ckspre] ∧
    wutConfigEvents 131072 =
      [Ev.wutSetAutoReload (131072 - 131072), Ev.wutSetClock WutClock.ckspreWut] :=
  ⟨(C1_wakeup_reload 131071).1 (by norm_num),
   (C1_wakeup_reload 131072).2 (by norm_num) (by norm_num)⟩

/-- C4: `checkOptionBytes` returns `success` if and only if all three
monitored option bits of the bank-1 user configuration word are clear; in
every other of the 2^3 combinations it returns `obNotPrepared` (and those
are its only possible results).  The source performs only the
`HAL_FLASHEx_OBGetConfig` read, which the embedding reflects by being a
pure function of the word read. -/
theorem C4_check_option_bytes (cfg : Nat) :
    (checkOptionBytes cfg = .success ↔
      cfg.testBit 3 = false ∧ cfg.testBit 7 = false ∧ cfg.testBit 22 = false) ∧
    (checkOptionBytes cfg = .success ∨ checkOptionBytes cfg = .obNotPrepared) := by
  unfold checkOptionBytes OB_STDBY_RST_D1 OB_STDBY_RST_D2 OB_BCM4_ENABLE
  simp only [ne_eq, two_pow_and_eq_zero]
  rcases h3 : cfg.testBit 3 <;> rcases h7 : cfg.testBit 7 <;>
    rcases h22 : cfg.testBit 22 <;>
      simp [h3, h7, h22]

/-- C2: for every delay value d with 262144 ≤ d < 2^64 other than the
indefinite sentinel, `standbyM7(d)` returns `wakeupDelayTooLong` with an
empty trace: no register write, no critical-section entry and no wait on
the flash controller happen on that path.  At the boundary, 262143 is
accepted past this check (it never yields `wakeupDelayTooLong`) while
262144 is rejected. -/
theorem C2_delay_bound (env : HalEnv) (d : Nat)
    (h1 : 262144 ≤ d) (h2 : d ≠ RTCWakeupDelay.infinite) :
    standbyM7 env d = (some LowPowerReturnCode.wakeupDelayTooLong, []) ∧
    (standbyM7 env 262143).1 ≠ some LowPowerReturnCode.wakeupDelayTooLong := by
  constructor
  · unfold standbyM7
    rw [if_pos ⟨by rw [two_shl_17]; exact h1, Ne.symm h2⟩]
  · rcases env with ⟨v, o, p, s1, s3, s2⟩
    cases v <;> cases o <;> cases p <;> cases s1 <;> cases s3 <;> cases s2 <;>
      decide

/-- C2 witness: the bound check at the concrete boundary input 262144. -/
theorem C2_delay_bound_witness :
    standbyM7 ⟨true, true, true, true, true, true⟩ 262144 =
      (some LowPowerReturnCode.wakeupDelayTooLong, []) ∧
    (standbyM7 ⟨true, true, true, true, true, true⟩ 262143).1 ≠
      some LowPowerReturnCode.wakeupDelayTooLong :=
  C2_delay_bound ⟨true, true, true, true, true, true⟩ 262144
    (by norm_num) (by decide)

/-- C5: `prepareOptionBytes` performs its steps in strict order with
distinct error codes: a failed flash unlock returns `flashUnlockFailed`
with no later unlock/program/launch step executed; a failed option-byte
unlock returns `obUnlockFailed` without programming; a failed program
step re-locks the option-byte region and the flash before returning
`obProgramFailed`; and if the launch step returns at all, the function
re-locks both regions and returns `obLaunchFailed`. -/
theorem C5_prepare_option_bytes (env : FlashEnv) :
    (env.flashUnlockOk = false →
      prepareOptionBytes env =
        (some LowPowerReturnCode.flashUnlockFailed, [FlashEv.flashUnlock])) ∧
    (env.flashUnlockOk = true → env.obUnlockOk = false →
      prepareOptionBytes env =
        (some LowPowerReturnCode.obUnlockFailed,
         [FlashEv.flashUnlock, FlashEv.obUnlock])) ∧
    (env.flashUnlockOk = true → env.obUnlockOk = true → env.obProgramOk = false →
      prepareOptionBytes env =
        (some LowPowerReturnCode.obProgramFailed,
         [FlashEv.flashUnlock, FlashEv.obUnlock, FlashEv.obProgram,
          FlashEv.obLock, FlashEv.flashLock])) ∧
    (env.flashUnlockOk = true → env.obUnlockOk = true → env.obProgramOk = true →
      env.obLaunchResets = false →
      prepareOptionBytes env =
        (some LowPowerReturnCode.obLaunchFailed,
         [FlashEv.flashUnlock, FlashEv.obUnlock, FlashEv.obProgram,
          FlashEv.obLaunch, FlashEv.obLock, FlashEv.flashLock])) := by
  rcases env with ⟨f, o, p, l⟩
  cases f <;> cases o <;> cases p <;> cases l <;> simp [prepareOptionBytes]

/-- C5 witness: the four failure paths at concrete environments. -/
theorem C5_prepare_option_bytes_witness :
    prepareOptionBytes ⟨false, true, true, true⟩ =
      (some LowPowerReturnCode.flashUnlockFailed, [FlashEv.flashUnlock]) ∧
    prepareOptionBytes ⟨true, false, true, true⟩ =
      (some LowPowerReturnCode.obUnlockFailed,
       [FlashEv.flashUnlock, FlashEv.obUnlock]) ∧
    prepareOptionBytes ⟨true, true, false, true⟩ =
      (some LowPowerReturnCode.obProgramFailed,
       [FlashEv.flashUnlock, FlashEv.obUnlock, FlashEv.obProgram,
        FlashEv.obLock, FlashEv.flashLock]) ∧
    prepareOptionBytes ⟨true, true, true, false⟩ =
      (some LowPowerReturnCode.obLaunchFailed,
       [FlashEv.flashUnlock, FlashEv.obUnlock, FlashEv.obProgram,
        FlashEv.obLaunch, FlashEv.obLock, FlashEv.flashLock]) :=
  ⟨(C5_prepare_option_bytes ⟨false, true, true, true⟩).1 rfl,
   (C5_prepare_option_bytes ⟨true, false, true, true⟩).2.1 rfl rfl,
   (C5_prepare_option_bytes ⟨true, true, false, true⟩).2.2.1 rfl rfl rfl,
   (C5_prepare_option_bytes ⟨true, true, true, false⟩).2.2.2 rfl rfl rfl rfl⟩

/-- C6 counterexample: evaluation of the quiescing write
`IMR3 &= ~0x1f5ffff` (resp. `C2IMR3 &= ~0x1f5ffff`) at a prior register
value with bits 17 and 18 set.  The adjacent source comment — repeated
by the spec and the claim's reserved-bit reading — says bits 31:25, 19
and 18 are reserved and must keep their prior values, but the mask
`0x1f5ffff` has bit 18 set and bit 17 clear, so the write clears bit 18
and preserves bit 17: the result is `2 ^ 17`, not the `2 ^ 18` the
comment mandates. -/
theorem C6_reserved_bit_mismatch :
    (quiesceExtiM7 ⟨0, 0, 2 ^ 17 + 2 ^ 18, 0, 0, 0⟩).imr3 = 2 ^ 17 ∧
    (quiesceExtiM4 ⟨0, 0, 2 ^ 17 + 2 ^ 18, 0, 0, 0⟩).imr3 = 2 ^ 17 ∧
    (quiesceExtiM7 ⟨0, 0, 2 ^ 17 + 2 ^ 18, 0, 0, 0⟩).imr3 ≠ 2 ^ 18 ∧
    (quiesceExtiM4 ⟨0, 0, 2 ^ 17 + 2 ^ 18, 0, 0, 0⟩).imr3 ≠ 2 ^ 18 := by
  decide

/-- C6 (amended): after the interrupt-quiescing writes of `standbyM7`
(`IMR1..3`, `PR1..3`) and of `standbyM4` (`C2IMR1..3`, `C2PR1..3`),
for every 32-bit register position: `IMR1` is entirely 0; `IMR2` has bit
13 forced to 1 and every other bit 0; the bits of `IMR3` in the mask
`0x1f5ffff` are cleared while its remaining bits — 31:25, 19 and 17 (17,
not the 18 stated in the source comment) — keep their prior values;
the non-reserved bits of the pending registers (`PR1` bits 21:0, `PR2`
bits 17 and 19, `PR3` bits 18, 20, 21 and 22) are written with 1
(the clear-on-write representation) while all their other bits keep
their prior values. -/
theorem C6_quiesce_register_bits (e : ExtiRegs) (i : Nat) (hi : i < 32) :
    ((quiesceExtiM7 e).imr1.testBit i = false ∧
     (quiesceExtiM4 e).imr1.testBit i = false) ∧
    (((quiesceExtiM7 e).imr2.testBit i = true ↔ i = 13) ∧
     ((quiesceExtiM4 e).imr2.testBit i = true ↔ i = 13)) ∧
    (Nat.testBit 0x1f5ffff i = true →
      (quiesceExtiM7 e).imr3.testBit i = false ∧
      (quiesceExtiM4 e).imr3.testBit i = false) ∧
    (Nat.testBit 0x1f5ffff i = false →
      (quiesceExtiM7 e).imr3.testBit i = e.imr3.testBit i ∧
      (quiesceExtiM4 e).imr3.testBit i = e.imr3.testBit i) ∧
    (i < 22 →
      (quiesceExtiM7 e).pr1.testBit i = true ∧
      (quiesceExtiM4 e).pr1.testBit i = true) ∧
    (22 ≤ i →
      (quiesceExtiM7 e).pr1.testBit i = e.pr1.testBit i ∧
      (quiesceExtiM4 e).pr1.testBit i = e.pr1.testBit i) ∧
    ((i = 17 ∨ i = 19) →
      (quiesceExtiM7 e).pr2.testBit i = true ∧
      (quiesceExtiM4 e).pr2.testBit i = true) ∧
    (¬(i = 17 ∨ i = 19) →
      (quiesceExtiM7 e).pr2.testBit i = e.pr2.testBit i ∧
      (quiesceExtiM4 e).pr2.testBit i = e.pr2.testBit i) ∧
    ((i = 18 ∨ i = 20 ∨ i = 21 ∨ i = 22) →
      (quiesceExtiM7 e).pr3.testBit i = true ∧
      (quiesceExtiM4 e).pr3.testBit i = true) ∧
    (¬(i = 18 ∨ i = 20 ∨ i = 21 ∨ i = 22) →
      (quiesceExtiM7 e).pr3.testBit i = e.pr3.testBit i ∧
      (quiesceExtiM4 e).pr3.testBit i = e.pr3.testBit i) := by
  have hff : (0xffffffff : Nat).testBit i = true := by
    have h32 : (0xffffffff : Nat) = 2 ^ 32 - 1 := by norm_num
    rw [h32, Nat.testBit_two_pow_sub_one]
    simpa using hi
  have h3f : (0x3fffff : Nat).testBit i = decide (i < 22) := by
    have h22 : (0x3fffff : Nat) = 2 ^ 22 - 1 := by norm_num
    rw [h22, Nat.testBit_two_pow_sub_one]
  refine ⟨?_, ?_, ?_, ?_, ?_, ?_, ?_, ?_, ?_, ?_⟩
  · constructor <;>
      simp only [quiesceExtiM7, clearPendingExtiM7, maskExtiM7,
        quiesceExtiM4, clearPendingExtiM4, maskExtiM4, Nat.zero_testBit]
  · constructor <;>
      (simp only [quiesceExtiM7, clearPendingExtiM7, maskExtiM7,
         quiesceExtiM4, clearPendingExtiM4, maskExtiM4, Nat.one_shiftLeft,
         Nat.testBit_two_pow, decide_eq_true_eq]
       exact eq_comm)
  · intro hm
    constructor <;>
      simp only [quiesceExtiM7, clearPendingExtiM7, maskExtiM7,
        quiesceExtiM4, clearPendingExtiM4, maskExtiM4, Nat.testBit_and,
        Nat.testBit_xor, hff, hm, Bool.xor_self, Bool.and_false]
  · intro hm
    constructor <;>
      simp only [quiesceExtiM7, clearPendingExtiM7, maskExtiM7,
        quiesceExtiM4, clearPendingExtiM4, maskExtiM4, Nat.testBit_and,
        Nat.testBit_xor, hff, hm, Bool.xor_false, Bool.and_true]
  · intro h22
    constructor <;>
      simp only [quiesceExtiM7, clearPendingExtiM7, maskExtiM7,
        quiesceExtiM4, clearPendingExtiM4, maskExtiM4, Nat.testBit_or,
        h3f, decide_eq_true h22, Bool.or_true]
  · intro h22
    constructor <;>
      simp only [quiesceExtiM7, clearPendingExtiM7, maskExtiM7,
        quiesceExtiM4, clearPendingExtiM4, maskExtiM4, Nat.testBit_or,
        h3f, decide_eq_false (by omega : ¬(i < 22)), Bool.or_false]
  · intro h
    rcases h with rfl | rfl <;>
      constructor <;>
        (simp [quiesceExtiM7, clearPendingExtiM7, maskExtiM7,
           quiesceExtiM4, clearPendingExtiM4, maskExtiM4, Nat.testBit_or,
           Nat.one_shiftLeft, Nat.testBit_two_pow]
         exact Or.inr (by decide))
  · intro h
    constructor <;>
      simp only [quiesceExtiM7, clearPendingExtiM7, maskExtiM7,
        quiesceExtiM4, clearPendingExtiM4, maskExtiM4, Nat.testBit_or,
        Nat.one_shiftLeft, Nat.testBit_two_pow,
        decide_eq_false (fun he => h (Or.inl he.symm) : ¬(17 = i)),
        decide_eq_false (fun he => h (Or.inr he.symm) : ¬(19 = i)),
        Bool.or_false]
  · intro h
    rcases h with rfl | rfl | rfl | rfl <;>
      constructor <;>
        (simp [quiesceExtiM7, clearPendingExtiM7, maskExtiM7,
           quiesceExtiM4, clearPendingExtiM4, maskExtiM4, Nat.testBit_or,
           Nat.one_shiftLeft, Nat.testBit_two_pow]
         exact Or.inr (by decide))
  · intro h
    constructor <;>
      simp only [quiesceExtiM7, clearPendingExtiM7, maskExtiM7,
        quiesceExtiM4, clearPendingExtiM4, maskExtiM4, Nat.testBit_or,
        Nat.one_shiftLeft, Nat.testBit_two_pow,
        decide_eq_false (fun he => h (Or.inl he.symm) : ¬(18 = i)),
        decide_eq_false (fun he => h (Or.inr (Or.inl he.symm)) : ¬(20 = i)),
        decide_eq_false (fun he => h (Or.inr (Or.inr (Or.inl he.symm))) : ¬(21 = i)),
        decide_eq_false (fun he => h (Or.inr (Or.inr (Or.inr he.symm))) : ¬(22 = i)),
        Bool.or_false]

/-- C6 witness: the amended statement at bit 18 (cleared in `IMR3`) and
at bit 13 of `IMR2` for a concrete prior register state. -/
theorem C6_quiesce_register_bits_witness :
    ((quiesceExtiM7 ⟨5, 5, 2 ^ 18, 5, 5, 5⟩).imr3.testBit 18 = false ∧
     (quiesceExtiM4 ⟨5, 5, 2 ^ 18, 5, 5, 5⟩).imr3.testBit 18 = false) :=
  (C6_quiesce_register_bits ⟨5, 5, 2 ^ 18, 5, 5, 5⟩ 18 (by norm_num)).2.2.1
    (by decide)

/-- C7: `standbyM7` returns `m7StandbyFailed` exactly when the final
power-down request for the D1 domain was issued and execution returned
from it (every earlier return path yields a different code); `standbyM4`
returns `m4StandbyFailed` exactly when execution returns from its final
domain-standby request, and that is its only possible return value. -/
theorem C7_standby_failed_paths (env : HalEnv) (d : Nat) :
    ((standbyM7 env d).1 = some LowPowerReturnCode.m7StandbyFailed ↔
      Ev.enterStandby PwrDomain.d1 ∈ (standbyM7 env d).2 ∧
        env.standbyD1Returns = true) ∧
    ((standbyM4 env).1 = some LowPowerReturnCode.m4StandbyFailed ↔
      Ev.enterStandby PwrDomain.d2 ∈ (standbyM4 env).2 ∧
        env.standbyD2Returns = true) ∧
    (∀ c, (standbyM4 env).1 = some c → c = LowPowerReturnCode.m4StandbyFailed) := by
  refine ⟨?_, ?_, ?_⟩
  · rw [standbyM7_fst, enterStandbyD1_mem_standbyM7]
    rcases env with ⟨v, o, p, s1, s3, s2⟩
    by_cases hC : 262144 ≤ d ∧ RTCWakeupDelay.infinite ≠ d
    · simp [two_shl_17, hC]
    · by_cases hI : RTCWakeupDelay.infinite = d
      · cases v <;> cases s1 <;> simp [two_shl_17, hI]
      · have hD : ¬(262144 ≤ d) := fun hd => hC ⟨hd, hI⟩
        cases v <;> cases o <;> cases p <;> cases s1 <;>
          simp [two_shl_17, hD, hI]
  · rcases env with ⟨v, o, p, s1, s3, s2⟩
    cases s3 <;> cases s2 <;> simp [standbyM4]
  · rcases env with ⟨v, o, p, s1, s3, s2⟩
    cases s3 <;> cases s2 <;> simp [standbyM4]

/-- C7 witness: both procedures at the environment where every standby
request returns. -/
theorem C7_standby_failed_paths_witness :
    (standbyM4 ⟨true, true, true, true, true, true⟩).1 =
      some LowPowerReturnCode.m4StandbyFailed ∧
    LowPowerReturnCode.m4StandbyFailed = LowPowerReturnCode.m4StandbyFailed :=
  ⟨by decide,
   (C7_standby_failed_paths ⟨true, true, true, true, true, true⟩ 0).2.2
     LowPowerReturnCode.m4StandbyFailed (by decide)⟩

/-- C8: when `standbyM7` is invoked with the indefinite (default) delay,
no wakeup-timer configuration step executes on any path: the trace
contains no write to the oscillator, RTC-clock-source or RTC registers,
no enabling of EXTI line 19, and no RTC wakeup interrupt priority or
enable at the NVIC. -/
theorem C8_infinite_no_wakeup_config (env : HalEnv) (e : Ev)
    (he : e ∈ (standbyM7 env RTCWakeupDelay.infinite).2) :
    isWakeupCfgEv e = false := by
  have h : ((standbyM7 env RTCWakeupDelay.infinite).2.all
      fun x => !isWakeupCfgEv x) = true := by
    rcases env with ⟨v, o, p, s1, s3, s2⟩
    cases v <;> cases o <;> cases p <;> cases s1 <;> cases s3 <;> cases s2 <;>
      decide
  have h2 := List.all_eq_true.mp h e he
  simpa using h2

/-- C8 witness: the critical-section entry is in the indefinite-delay
trace and is not a wakeup-configuration event. -/
theorem C8_infinite_no_wakeup_config_witness :
    isWakeupCfgEv Ev.csEnter = false :=
  C8_infinite_no_wakeup_config ⟨true, true, true, true, true, true⟩ Ev.csEnter
    (by decide)

/-- C10: once `standbyM7` has passed its delay-bound check (and always in
`standbyM4`), the critical section entered via
`core_util_critical_section_enter` is never exited: no trace of either
procedure contains a critical-section exit, and every terminal error
return other than the pre-critical-section `wakeupDelayTooLong` reject
happens with the critical section entered. -/
theorem C10_critical_section_never_exited (env : HalEnv) (d : Nat) :
    Ev.csExit ∉ (standbyM7 env d).2 ∧
    Ev.csExit ∉ (standbyM4 env).2 ∧
    (∀ c, (standbyM7 env d).1 = some c →
      c ≠ LowPowerReturnCode.wakeupDelayTooLong →
      Ev.csEnter ∈ (standbyM7 env d).2) ∧
    ((standbyM4 env).1.isSome = true → Ev.csEnter ∈ (standbyM4 env).2) := by
  refine ⟨csExit_not_mem_standbyM7 env d, ?_, ?_, ?_⟩
  · rcases env with ⟨v, o, p, s1, s3, s2⟩
    cases s3 <;> cases s2 <;> simp [standbyM4]
  · intro c hc hne
    rw [csEnter_mem_standbyM7]
    intro hC
    rw [standbyM7_fst, if_pos hC] at hc
    exact hne (Option.some.inj hc).symm
  · rcases env with ⟨v, o, p, s1, s3, s2⟩
    cases s3 <;> cases s2 <;> simp [standbyM4]

/-- C10 witness: at the all-returning environment with delay 0,
`standbyM7` returns `m7StandbyFailed` with the critical section entered. -/
theorem C10_critical_section_never_exited_witness :
    Ev.csEnter ∈ (standbyM7 ⟨true, true, true, true, true, true⟩ 0).2 :=
  (C10_critical_section_never_exited ⟨true, true, true, true, true, true⟩ 0).2.2.1
    LowPowerReturnCode.m7StandbyFailed (by decide) (by decide)

end LowPowerNiclaVision
